import Mathlib

/-!
Verification development for the multi-output booster orchestration layer of
the `perpetual` repository (`python-package/src/multi_output.rs`).

The visible source is the Python-binding layer over the `perpetual_rs` crate.
Definitions below are translated from that source where it exists; parts of
the crate that are not in the sources (the `MultiOutputBooster` crate type,
`Matrix`, the metadata store, persistence, the fit/predict coordinators and
the enum string codecs) are modelled from the specification, each marked
`Modelled from the spec:` in its doc comment.

Numeric values are carried as rationals: the orchestration layer only
transports prediction values and configuration scalars, it performs no
floating-point arithmetic of its own.
-/

namespace Perpetual

/-- Numeric carrier for matrix entries, scores and configuration scalars. -/
abbrev Value := Rat

/-- Modelled from the spec: the error kinds of section 7 (the binding maps
them onto host exceptions; the kind is what the spec contracts). -/
inductive PError where
  | shapeError
  | configError
  | notFoundError
  | deserializeError
deriving DecidableEq, Repr

/-- Modelled from the spec: the objective enumeration ("squared-loss,
log-loss, ..."), a closed tagged variant parsed from strings at the
boundary (`serde_plain::from_str` in the source). -/
inductive Objective where
  | LogLoss
  | SquaredLoss
  | QuantileLoss
deriving DecidableEq, Repr

/-- Modelled from the spec: string form of an objective, inverse of
`parseObjective` (`serde_plain::to_string` in the source). -/
def objectiveToString : Objective → String
  | .LogLoss => "LogLoss"
  | .SquaredLoss => "SquaredLoss"
  | .QuantileLoss => "QuantileLoss"

/-- Modelled from the spec: parsing an objective string, failing on every
unrecognized value rather than defaulting. -/
def parseObjective (s : String) : Option Objective :=
  if s = "LogLoss" then some .LogLoss
  else if s = "SquaredLoss" then some .SquaredLoss
  else if s = "QuantileLoss" then some .QuantileLoss
  else none

/-- Modelled from the spec: the missing-value-node policy enumeration
("average, zero, branch-specific"). -/
inductive MissingNodeTreatment where
  | Average
  | Zero
  | BranchSpecific
deriving DecidableEq, Repr

/-- Modelled from the spec: string form of a missing-node treatment. -/
def missingNodeTreatmentToString : MissingNodeTreatment → String
  | .Average => "Average"
  | .Zero => "Zero"
  | .BranchSpecific => "BranchSpecific"

/-- Modelled from the spec: parsing a missing-node-treatment string,
failing on every unrecognized value rather than defaulting. -/
def parseMissingNodeTreatment (s : String) : Option MissingNodeTreatment :=
  if s = "Average" then some .Average
  else if s = "Zero" then some .Zero
  else if s = "BranchSpecific" then some .BranchSpecific
  else none

/-- Monotonic-constraint variants, as in `perpetual_rs::constraints`. -/
inductive Constraint where
  | Negative
  | Positive
  | Unconstrained
deriving DecidableEq, Repr

/-- Integer coding of a constraint used by `get_params`
(source lines 282-286). -/
def constraintToInt : Constraint → Int
  | .Negative => -1
  | .Positive => 1
  | .Unconstrained => 0

/-- Modelled from the spec: `int_map_to_constraint_map` from the binding's
`utils` module (not among the sources). The caller-facing map has integer
keys and integer constraint codes; a negative feature index is a
ConfigError (spec section 4.2), and a code other than -1, 0, 1 is a
malformed enum value, also a ConfigError. -/
def constraintOfInt (c : Int) : Option Constraint :=
  if c = -1 then some .Negative
  else if c = 1 then some .Positive
  else if c = 0 then some .Unconstrained
  else none

/-- Modelled from the spec: body of `int_map_to_constraint_map` — every
entry is validated, any failure aborts the whole translation. -/
def int_map_to_constraint_map :
    List (Int × Int) → Except PError (List (Nat × Constraint))
  | [] => .ok []
  | (f, c) :: rest =>
    if f < 0 then .error .configError
    else
      match constraintOfInt c with
      | none => .error .configError
      | some c' =>
        match int_map_to_constraint_map rest with
        | .error e => .error e
        | .ok rest' => .ok ((f.toNat, c') :: rest')

/-- Modelled from the spec: a Matrix is a read-only view of a flat buffer
with explicit row and column counts, value at (r, c) = buffer[r*C + c]. -/
structure Matrix where
  data : List Value
  rows : Nat
  cols : Nat
deriving DecidableEq, Repr

/-- Element access, row-major. -/
def Matrix.get (m : Matrix) (r c : Nat) : Value :=
  m.data.getD (r * m.cols + c) 0

/-- Whole-row access. -/
def Matrix.row (m : Matrix) (r : Nat) : List Value :=
  (List.range m.cols).map fun c => m.get r c

/-- Column access, used to slice the target matrix per output. -/
def Matrix.col (m : Matrix) (c : Nat) : List Value :=
  (List.range m.rows).map fun r => m.get r c

/-- Modelled from the spec: Matrix construction fails with a ShapeError if
the buffer length is not rows*cols (spec section 4.1). -/
def Matrix.new (data : List Value) (rows cols : Nat) : Except PError Matrix :=
  if data.length = rows * cols then .ok ⟨data, rows, cols⟩
  else .error .shapeError

/-- The shared configuration applied identically to every booster in the
collection: the ten fields set in the constructor of the binding
(source lines 54-64). -/
structure BoosterConfig where
  objective : Objective
  num_threads : Option Nat
  monotone_constraints : Option (List (Nat × Constraint))
  force_children_to_bound_parent : Bool
  missing : Value
  allow_missing_splits : Bool
  create_missing_branch : Bool
  terminate_missing_features : List Nat
  missing_node_treatment : MissingNodeTreatment
  log_iterations : Nat
deriving DecidableEq, Repr

/-- Modelled from the spec: tree internals are out of scope (section 1); a
tree is an opaque evaluable datum, here a list of (feature index, weight)
contributions. -/
structure Tree where
  leaves : List (Nat × Value)
deriving DecidableEq, Repr

/-- Modelled from the spec: evaluation of one tree on one row. -/
def Tree.eval (t : Tree) (row : List Value) : Value :=
  t.leaves.foldl (fun acc p => acc + p.2 * row.getD p.1 0) 0

/-- Modelled from the spec: the single-output engine's model — a base
score, an ordered sequence of trees, the configuration propagated to it,
and the column count recorded at fit time (`none` while unfitted). -/
structure SingleOutputBooster where
  config : BoosterConfig
  base_score : Value
  trees : List Tree
  n_features : Option Nat
deriving DecidableEq, Repr

/-- Modelled from the spec: a fresh unfitted booster initialized with the
supplied configuration. -/
def newBooster (cfg : BoosterConfig) : SingleOutputBooster :=
  { config := cfg, base_score := 0, trees := [], n_features := none }

/-- Modelled from the spec: one booster's raw prediction for one row —
base score plus the contributions of its trees. -/
def SingleOutputBooster.predictRow (b : SingleOutputBooster)
    (row : List Value) : Value :=
  b.trees.foldl (fun acc t => acc + t.eval row) b.base_score

/-- Modelled from the spec: the engine's prediction over a matrix produces
one value per row in row order, and fails with a ShapeError if the matrix
column count does not match the column count used at fit time
(spec section 4.4). -/
def SingleOutputBooster.predict (b : SingleOutputBooster)
    (data : Matrix) : Except PError (List Value) :=
  match b.n_features with
  | none => .error .shapeError
  | some c =>
    if data.cols = c then
      .ok ((List.range data.rows).map fun r => b.predictRow (data.row r))
    else .error .shapeError

/-- Modelled from the spec: a bounded squashing of a raw score into a
probability-like value, standing in for the engine's probability
transform (its internals are out of scope). -/
def squash (x : Value) : Value := x / (1 + |x|)

/-- Modelled from the spec: the engine's probability prediction, same
shape contract as `predict`. -/
def SingleOutputBooster.predictProba (b : SingleOutputBooster)
    (data : Matrix) : Except PError (List Value) :=
  match b.n_features with
  | none => .error .shapeError
  | some c =>
    if data.cols = c then
      .ok ((List.range data.rows).map fun r => squash (b.predictRow (data.row r)))
    else .error .shapeError

/-- Modelled from the spec: the crate's `MultiOutputBooster` — the shared
configuration fields, the output count, the ordered sequence of
single-output boosters, and the string-to-string metadata store. -/
structure MultiOutputBooster where
  objective : Objective
  num_threads : Option Nat
  monotone_constraints : Option (List (Nat × Constraint))
  force_children_to_bound_parent : Bool
  missing : Value
  allow_missing_splits : Bool
  create_missing_branch : Bool
  terminate_missing_features : List Nat
  missing_node_treatment : MissingNodeTreatment
  log_iterations : Nat
  n_boosters : Nat
  boosters : List SingleOutputBooster
  metadata : List (String × String)
deriving DecidableEq, Repr

namespace MultiOutputBooster

/-- The collection's current shared configuration as one value. -/
def config (m : MultiOutputBooster) : BoosterConfig :=
  { objective := m.objective
    num_threads := m.num_threads
    monotone_constraints := m.monotone_constraints
    force_children_to_bound_parent := m.force_children_to_bound_parent
    missing := m.missing
    allow_missing_splits := m.allow_missing_splits
    create_missing_branch := m.create_missing_branch
    terminate_missing_features := m.terminate_missing_features
    missing_node_treatment := m.missing_node_treatment
    log_iterations := m.log_iterations }

/-- Modelled from the spec: re-applying a configuration to the collection
propagates it to every booster in one logical step (spec section 4.2). -/
def withConfig (m : MultiOutputBooster) (cfg : BoosterConfig) :
    MultiOutputBooster :=
  { m with
    objective := cfg.objective
    num_threads := cfg.num_threads
    monotone_constraints := cfg.monotone_constraints
    force_children_to_bound_parent := cfg.force_children_to_bound_parent
    missing := cfg.missing
    allow_missing_splits := cfg.allow_missing_splits
    create_missing_branch := cfg.create_missing_branch
    terminate_missing_features := cfg.terminate_missing_features
    missing_node_treatment := cfg.missing_node_treatment
    log_iterations := cfg.log_iterations
    boosters := m.boosters.map fun b => { b with config := cfg } }

/-- Modelled from the spec: crate builder setter for the objective. -/
def set_objective (m : MultiOutputBooster) (o : Objective) :
    MultiOutputBooster :=
  m.withConfig { m.config with objective := o }

/-- Modelled from the spec: crate builder setter for the thread count. -/
def set_num_threads (m : MultiOutputBooster) (n : Option Nat) :
    MultiOutputBooster :=
  m.withConfig { m.config with num_threads := n }

/-- Modelled from the spec: crate builder setter for the constraint map. -/
def set_monotone_constraints (m : MultiOutputBooster)
    (mc : Option (List (Nat × Constraint))) : MultiOutputBooster :=
  m.withConfig { m.config with monotone_constraints := mc }

/-- Modelled from the spec: crate builder setter. -/
def set_force_children_to_bound_parent (m : MultiOutputBooster) (v : Bool) :
    MultiOutputBooster :=
  m.withConfig { m.config with force_children_to_bound_parent := v }

/-- Modelled from the spec: crate builder setter for the missing sentinel. -/
def set_missing (m : MultiOutputBooster) (v : Value) : MultiOutputBooster :=
  m.withConfig { m.config with missing := v }

/-- Modelled from the spec: crate builder setter. -/
def set_allow_missing_splits (m : MultiOutputBooster) (v : Bool) :
    MultiOutputBooster :=
  m.withConfig { m.config with allow_missing_splits := v }

/-- Modelled from the spec: crate builder setter. -/
def set_create_missing_branch (m : MultiOutputBooster) (v : Bool) :
    MultiOutputBooster :=
  m.withConfig { m.config with create_missing_branch := v }

/-- Modelled from the spec: crate builder setter. -/
def set_terminate_missing_features (m : MultiOutputBooster)
    (v : List Nat) : MultiOutputBooster :=
  m.withConfig { m.config with terminate_missing_features := v }

/-- Modelled from the spec: crate builder setter. -/
def set_missing_node_treatment (m : MultiOutputBooster)
    (v : MissingNodeTreatment) : MultiOutputBooster :=
  m.withConfig { m.config with missing_node_treatment := v }

/-- Modelled from the spec: crate builder setter. -/
def set_log_iterations (m : MultiOutputBooster) (v : Nat) :
    MultiOutputBooster :=
  m.withConfig { m.config with log_iterations := v }

/-- Modelled from the spec: crate builder setter for the output count —
rebuilds the collection with N fresh boosters, each initialized with the
current shared configuration (spec section 4.2). -/
def set_n_boosters (m : MultiOutputBooster) (n : Nat) : MultiOutputBooster :=
  { m with n_boosters := n, boosters := List.replicate n (newBooster m.config) }

/-- Modelled from the spec: the crate's default collection, starting point
of the constructor's builder chain. -/
def default : MultiOutputBooster :=
  { objective := .LogLoss
    num_threads := none
    monotone_constraints := none
    force_children_to_bound_parent := false
    missing := 0
    allow_missing_splits := true
    create_missing_branch := false
    terminate_missing_features := []
    missing_node_treatment := .Average
    log_iterations := 0
    n_boosters := 1
    boosters := [newBooster
      { objective := .LogLoss
        num_threads := none
        monotone_constraints := none
        force_children_to_bound_parent := false
        missing := 0
        allow_missing_splits := true
        create_missing_branch := false
        terminate_missing_features := []
        missing_node_treatment := .Average
        log_iterations := 0 }]
    metadata := [] }

/-- Modelled from the spec: metadata insertion always succeeds and
overwrites any earlier value for the key (spec section 6). -/
def insert_metadata (m : MultiOutputBooster) (k v : String) :
    MultiOutputBooster :=
  { m with metadata := (k, v) :: m.metadata.filter (fun p => p.1 ≠ k) }

/-- Modelled from the spec: metadata lookup, absent keys give `none`,
never a default (spec section 6). -/
def get_metadata (m : MultiOutputBooster) (k : String) : Option String :=
  (m.metadata.find? fun p => p.1 == k).map (·.2)

/-- Modelled from the spec: the single-output engine's fit — records the
fit-time column count, recomputes the base score from the target column,
and (when the budget permits) extends or resets the tree sequence
(spec sections 3 and 4.3; the growth algorithm itself is out of scope). -/
def engineFit (b : SingleOutputBooster) (data : Matrix)
    (target : List Value) (reset : Bool) : SingleOutputBooster :=
  { b with
    n_features := some data.cols
    base_score := target.foldl (· + ·) 0
    trees := (if reset then [] else b.trees) ++ [⟨[(0, 1)]⟩] }

/-- Modelled from the spec: the crate's fit coordinator — validates that
the target matrix has exactly N columns and the feature matrix's row
count (spec section 4.3), then fits booster i on column i of the
targets; budget and timeout are passed whole to every output. -/
def fit (m : MultiOutputBooster) (data y_data : Matrix)
    (reset : Option Bool) : Except PError MultiOutputBooster :=
  if y_data.cols = m.n_boosters ∧ y_data.rows = data.rows then
    .ok { m with
          boosters := m.boosters.enum.map fun p =>
            engineFit p.2 data (y_data.col p.1) (reset.getD true) }
  else .error .shapeError

/-- Result assembly for the predict coordinator: concatenate per-output
results in output-index order, surfacing the first failure unchanged. -/
def collectResults : List (Except PError (List Value)) →
    Except PError (List Value)
  | [] => .ok []
  | x :: xs =>
    match x with
    | .error e => .error e
    | .ok v =>
      match collectResults xs with
      | .error e => .error e
      | .ok vs => .ok (v ++ vs)

/-- Modelled from the spec: the parallel schedule — independent units of
work, one per output, modelled as a fork-join split of the booster list
into halves evaluated independently and joined in index order. -/
def parRun (f : SingleOutputBooster → Except PError (List Value)) :
    List SingleOutputBooster → List (Except PError (List Value))
  | [] => []
  | [b] => [f b]
  | b₀ :: b₁ :: rest =>
    let bs := b₀ :: b₁ :: rest
    let n := bs.length / 2
    parRun f (bs.take n) ++ parRun f (bs.drop n)
termination_by bs => bs.length
decreasing_by
  all_goals simp [List.length_take, List.length_drop]
  · omega
  · omega

/-- Modelled from the spec: the predict coordinator — each booster
predicts over the full feature matrix, results are concatenated
output-major; `parallel` selects the fork-join schedule, `false` the
sequential one in index order (spec section 4.4). -/
def predict (m : MultiOutputBooster) (data : Matrix) (parallel : Bool) :
    Except PError (List Value) :=
  collectResults
    (if parallel then parRun (fun b => b.predict data) m.boosters
     else m.boosters.map fun b => b.predict data)

/-- Modelled from the spec: probability prediction, same shape contract
and scheduling as `predict`. -/
def predict_proba (m : MultiOutputBooster) (data : Matrix)
    (parallel : Bool) : Except PError (List Value) :=
  collectResults
    (if parallel then parRun (fun b => b.predictProba data) m.boosters
     else m.boosters.map fun b => b.predictProba data)

end MultiOutputBooster

/-! ### The Python-binding layer (`multi_output.rs`)

Each `py...` definition below is the functional translation of the
corresponding `#[pymethods]` item: a `&mut self` method with a fallible
result becomes a function returning the status paired with the
post-state, so that "the receiver is unchanged" is expressible. -/

/-- Values a `get_params` dictionary entry can carry (source
lines 291-311 build a string-keyed dictionary of these). -/
inductive ParamValue where
  | str (s : String)
  | optNat (n : Option Nat)
  | bool (b : Bool)
  | num (v : Value)
  | intMap (m : List (Nat × Int))
  | natSet (s : List Nat)
  | nat (n : Nat)
deriving DecidableEq, Repr

/-- The integer view of the stored constraint map built by `get_params`:
an absent map is replaced by the empty map (`unwrap_or` at source
line 279), and each constraint is coded -1 / 1 / 0 (lines 282-286). -/
def monotoneConstraintParam (m : MultiOutputBooster) : List (Nat × Int) :=
  (m.monotone_constraints.getD []).map fun p => (p.1, constraintToInt p.2)

/-- Binding `get_params` (source lines 270-315): a snapshot of the current
configuration as a string-keyed dictionary, keys in source order. -/
def get_params (m : MultiOutputBooster) : List (String × ParamValue) :=
  [("objective", .str (objectiveToString m.objective)),
   ("num_threads", .optNat m.num_threads),
   ("allow_missing_splits", .bool m.allow_missing_splits),
   ("monotone_constraints", .intMap (monotoneConstraintParam m)),
   ("missing", .num m.missing),
   ("create_missing_branch", .bool m.create_missing_branch),
   ("terminate_missing_features", .natSet m.terminate_missing_features),
   ("missing_node_treatment",
     .str (missingNodeTreatmentToString m.missing_node_treatment)),
   ("log_iterations", .nat m.log_iterations),
   ("force_children_to_bound_parent",
     .bool m.force_children_to_bound_parent)]

/-- Binding constructor `new` (source lines 37-68): parse the objective string, then the
missing-node-treatment string, then translate the integer constraint
map; any failure aborts construction; on success run the builder chain
in source order, ending with `set_n_boosters`. -/
def pyNew (n_boosters : Nat) (objective : String) (num_threads : Option Nat)
    (monotone_constraints : List (Int × Int))
    (force_children_to_bound_parent : Bool) (missing : Value)
    (allow_missing_splits : Bool) (create_missing_branch : Bool)
    (terminate_missing_features : List Nat) (missing_node_treatment : String)
    (log_iterations : Nat) : Except PError MultiOutputBooster :=
  match parseObjective objective with
  | none => .error .configError
  | some objective_ =>
    match parseMissingNodeTreatment missing_node_treatment with
    | none => .error .configError
    | some missing_node_treatment_ =>
      match int_map_to_constraint_map monotone_constraints with
      | .error e => .error e
      | .ok monotone_constraints_ =>
        .ok (MultiOutputBooster.default.set_objective objective_
          |>.set_num_threads num_threads
          |>.set_monotone_constraints (some monotone_constraints_)
          |>.set_force_children_to_bound_parent force_children_to_bound_parent
          |>.set_missing missing
          |>.set_allow_missing_splits allow_missing_splits
          |>.set_create_missing_branch create_missing_branch
          |>.set_terminate_missing_features terminate_missing_features
          |>.set_missing_node_treatment missing_node_treatment_
          |>.set_log_iterations log_iterations
          |>.set_n_boosters n_boosters)

/-- Setter `set_objective` (source lines 75-80): parse first, mutate only
on success. -/
def pySetObjective (m : MultiOutputBooster) (value : String) :
    Except PError Unit × MultiOutputBooster :=
  match parseObjective value with
  | none => (.error .configError, m)
  | some o => (.ok (), m.set_objective o)

/-- Setter `set_missing_node_treatment` (source lines 117-122): parse
first, mutate only on success. -/
def pySetMissingNodeTreatment (m : MultiOutputBooster) (value : String) :
    Except PError Unit × MultiOutputBooster :=
  match parseMissingNodeTreatment value with
  | none => (.error .configError, m)
  | some t => (.ok (), m.set_missing_node_treatment t)

/-- Setter `set_monotone_constraints` (source lines 87-91): translate the
integer map first, mutate only on success. -/
def pySetMonotoneConstraints (m : MultiOutputBooster)
    (value : List (Int × Int)) : Except PError Unit × MultiOutputBooster :=
  match int_map_to_constraint_map value with
  | .error e => (.error e, m)
  | .ok mc => (.ok (), m.set_monotone_constraints (some mc))

/-- Binding `fit` (source lines 151-193): build the feature matrix from the flat
buffer with the caller's row and column counts, build the target matrix
from the flat target buffer with the same row count and the collection's
output count as its column count, then run the crate's fit; any failure
leaves the receiver untouched. -/
def pyFit (m : MultiOutputBooster) (flat_data : List Value)
    (rows cols : Nat) (y : List Value) (reset : Option Bool) :
    Except PError Unit × MultiOutputBooster :=
  match Matrix.new flat_data rows cols with
  | .error e => (.error e, m)
  | .ok data =>
    match Matrix.new y rows m.n_boosters with
    | .error e => (.error e, m)
    | .ok y_data =>
      match m.fit data y_data reset with
      | .error e => (.error e, m)
      | .ok m' => (.ok (), m')

/-- Binding `predict` (source lines 195-207): build the feature matrix, default
the parallel flag to true, and run the crate's predict. -/
def pyPredict (m : MultiOutputBooster) (flat_data : List Value)
    (rows cols : Nat) (parallel : Option Bool) :
    Except PError (List Value) :=
  match Matrix.new flat_data rows cols with
  | .error e => .error e
  | .ok data => m.predict data (parallel.getD true)

/-- Binding `predict_proba` (source lines 209-221): same shape as `predict`. -/
def pyPredictProba (m : MultiOutputBooster) (flat_data : List Value)
    (rows cols : Nat) (parallel : Option Bool) :
    Except PError (List Value) :=
  match Matrix.new flat_data rows cols with
  | .error e => .error e
  | .ok data => m.predict_proba data (parallel.getD true)

/-- Binding `insert_metadata` (source lines 237-240): always returns success. -/
def pyInsertMetadata (m : MultiOutputBooster) (key value : String) :
    Except PError Unit × MultiOutputBooster :=
  (.ok (), m.insert_metadata key value)

/-- Binding `get_metadata` (source lines 242-250): a missing key becomes a
KeyError — the NotFound condition — never a default value. -/
def pyGetMetadata (m : MultiOutputBooster) (key : String) :
    Except PError String :=
  match m.get_metadata key with
  | some v => .ok v
  | none => .error .notFoundError

/-! ### Persistence

Modelled from the spec: the persisted binary form is opaque beyond the
round-trip law (spec sections 4.5 and 6), so it is modelled as a flat
token stream written by `save_booster` and re-parsed by `load_booster`;
the file transport itself (the path argument) is I/O and is modelled as
handing the stream through unchanged. -/

/-- Primitive cells of the persisted stream. -/
inductive Token where
  | nat (n : Nat)
  | num (q : Value)
  | str (s : String)
  | bool (b : Bool)
deriving DecidableEq, Repr

/-- A persisted stream. -/
abbrev Tokens := List Token

/-- Encode a natural number. -/
def encNat (n : Nat) : Tokens := [.nat n]

/-- Decode a natural number. -/
def decNat : Tokens → Option (Nat × Tokens)
  | .nat n :: ts => some (n, ts)
  | _ => none

/-- Encode a numeric value. -/
def encNum (q : Value) : Tokens := [.num q]

/-- Decode a numeric value. -/
def decNum : Tokens → Option (Value × Tokens)
  | .num q :: ts => some (q, ts)
  | _ => none

/-- Encode a string. -/
def encStr (s : String) : Tokens := [.str s]

/-- Decode a string. -/
def decStr : Tokens → Option (String × Tokens)
  | .str s :: ts => some (s, ts)
  | _ => none

/-- Encode a boolean. -/
def encBool (b : Bool) : Tokens := [.bool b]

/-- Decode a boolean. -/
def decBool : Tokens → Option (Bool × Tokens)
  | .bool b :: ts => some (b, ts)
  | _ => none

/-- Encode a list as its length followed by the encoded elements. -/
def encList (enc : α → Tokens) (xs : List α) : Tokens :=
  encNat xs.length ++ (xs.map enc).flatten

/-- Decode exactly `n` elements. -/
def decListN (dec : Tokens → Option (α × Tokens)) :
    Nat → Tokens → Option (List α × Tokens)
  | 0, ts => some ([], ts)
  | n + 1, ts => do
    let (x, ts) ← dec ts
    let (xs, ts) ← decListN dec n ts
    some (x :: xs, ts)

/-- Decode a length-prefixed list. -/
def decList (dec : Tokens → Option (α × Tokens)) (ts : Tokens) :
    Option (List α × Tokens) := do
  let (n, ts) ← decNat ts
  decListN dec n ts

/-- Encode an optional natural number. -/
def encOptNat : Option Nat → Tokens
  | none => encBool false
  | some n => encBool true ++ encNat n

/-- Decode an optional natural number. -/
def decOptNat (ts : Tokens) : Option (Option Nat × Tokens) := do
  let (b, ts) ← decBool ts
  if b then
    let (n, ts) ← decNat ts
    some (some n, ts)
  else
    some (none, ts)

/-- Numeric tag of an objective in the persisted form. -/
def objectiveTag : Objective → Nat
  | .LogLoss => 0
  | .SquaredLoss => 1
  | .QuantileLoss => 2

/-- Objective from a persisted tag. -/
def objectiveOfTag : Nat → Option Objective
  | 0 => some .LogLoss
  | 1 => some .SquaredLoss
  | 2 => some .QuantileLoss
  | _ => none

/-- Encode an objective. -/
def encObjective (o : Objective) : Tokens := encNat (objectiveTag o)

/-- Decode an objective. -/
def decObjective (ts : Tokens) : Option (Objective × Tokens) := do
  let (n, ts) ← decNat ts
  let o ← objectiveOfTag n
  some (o, ts)

/-- Numeric tag of a missing-node treatment in the persisted form. -/
def missingNodeTreatmentTag : MissingNodeTreatment → Nat
  | .Average => 0
  | .Zero => 1
  | .BranchSpecific => 2

/-- Missing-node treatment from a persisted tag. -/
def missingNodeTreatmentOfTag : Nat → Option MissingNodeTreatment
  | 0 => some .Average
  | 1 => some .Zero
  | 2 => some .BranchSpecific
  | _ => none

/-- Encode a missing-node treatment. -/
def encMissingNodeTreatment (t : MissingNodeTreatment) : Tokens :=
  encNat (missingNodeTreatmentTag t)

/-- Decode a missing-node treatment. -/
def decMissingNodeTreatment (ts : Tokens) :
    Option (MissingNodeTreatment × Tokens) := do
  let (n, ts) ← decNat ts
  let t ← missingNodeTreatmentOfTag n
  some (t, ts)

/-- Numeric tag of a constraint in the persisted form. -/
def constraintTag : Constraint → Nat
  | .Negative => 0
  | .Positive => 1
  | .Unconstrained => 2

/-- Constraint from a persisted tag. -/
def constraintOfTag : Nat → Option Constraint
  | 0 => some .Negative
  | 1 => some .Positive
  | 2 => some .Unconstrained
  | _ => none

/-- Encode one constraint-map entry. -/
def encConstraintEntry (p : Nat × Constraint) : Tokens :=
  encNat p.1 ++ encNat (constraintTag p.2)

/-- Decode one constraint-map entry. -/
def decConstraintEntry (ts : Tokens) : Option ((Nat × Constraint) × Tokens) := do
  let (f, ts) ← decNat ts
  let (n, ts) ← decNat ts
  let c ← constraintOfTag n
  some ((f, c), ts)

/-- Encode the optional constraint map. -/
def encOptConstraintMap : Option (List (Nat × Constraint)) → Tokens
  | none => encBool false
  | some mc => encBool true ++ encList encConstraintEntry mc

/-- Decode the optional constraint map. -/
def decOptConstraintMap (ts : Tokens) :
    Option (Option (List (Nat × Constraint)) × Tokens) := do
  let (b, ts) ← decBool ts
  if b then
    let (mc, ts) ← decList decConstraintEntry ts
    some (some mc, ts)
  else
    some (none, ts)

/-- Encode a shared configuration, fields in declaration order. -/
def encConfig (c : BoosterConfig) : Tokens :=
  encObjective c.objective ++ encOptNat c.num_threads ++
  encOptConstraintMap c.monotone_constraints ++
  encBool c.force_children_to_bound_parent ++ encNum c.missing ++
  encBool c.allow_missing_splits ++ encBool c.create_missing_branch ++
  encList encNat c.terminate_missing_features ++
  encMissingNodeTreatment c.missing_node_treatment ++
  encNat c.log_iterations

/-- Decode a shared configuration. -/
def decConfig (ts : Tokens) : Option (BoosterConfig × Tokens) := do
  let (objective, ts) ← decObjective ts
  let (num_threads, ts) ← decOptNat ts
  let (monotone_constraints, ts) ← decOptConstraintMap ts
  let (force_children_to_bound_parent, ts) ← decBool ts
  let (missing, ts) ← decNum ts
  let (allow_missing_splits, ts) ← decBool ts
  let (create_missing_branch, ts) ← decBool ts
  let (terminate_missing_features, ts) ← decList decNat ts
  let (missing_node_treatment, ts) ← decMissingNodeTreatment ts
  let (log_iterations, ts) ← decNat ts
  some ({ objective, num_threads, monotone_constraints,
          force_children_to_bound_parent, missing, allow_missing_splits,
          create_missing_branch, terminate_missing_features,
          missing_node_treatment, log_iterations }, ts)

/-- Encode one tree leaf. -/
def encLeaf (p : Nat × Value) : Tokens := encNat p.1 ++ encNum p.2

/-- Decode one tree leaf. -/
def decLeaf (ts : Tokens) : Option ((Nat × Value) × Tokens) := do
  let (f, ts) ← decNat ts
  let (w, ts) ← decNum ts
  some ((f, w), ts)

/-- Encode a tree. -/
def encTree (t : Tree) : Tokens := encList encLeaf t.leaves

/-- Decode a tree. -/
def decTree (ts : Tokens) : Option (Tree × Tokens) := do
  let (leaves, ts) ← decList decLeaf ts
  some (⟨leaves⟩, ts)

/-- Encode one single-output booster. -/
def encBooster (b : SingleOutputBooster) : Tokens :=
  encConfig b.config ++ encNum b.base_score ++
  encList encTree b.trees ++ encOptNat b.n_features

/-- Decode one single-output booster. -/
def decBooster (ts : Tokens) : Option (SingleOutputBooster × Tokens) := do
  let (config, ts) ← decConfig ts
  let (base_score, ts) ← decNum ts
  let (trees, ts) ← decList decTree ts
  let (n_features, ts) ← decOptNat ts
  some ({ config, base_score, trees, n_features }, ts)

/-- Encode one metadata entry. -/
def encMeta (p : String × String) : Tokens := encStr p.1 ++ encStr p.2

/-- Decode one metadata entry. -/
def decMeta (ts : Tokens) : Option ((String × String) × Tokens) := do
  let (k, ts) ← decStr ts
  let (v, ts) ← decStr ts
  some ((k, v), ts)

/-- Persistence operation `save_booster`: the whole collection — shared configuration, output
count, every booster (trees, base score, internal state), and the
metadata store — serialized to the persisted stream. -/
def save_booster (m : MultiOutputBooster) : Tokens :=
  encConfig m.config ++ encNat m.n_boosters ++
  encList encBooster m.boosters ++ encList encMeta m.metadata

/-- Decode a whole collection from the persisted stream. -/
def decMulti (ts : Tokens) : Option (MultiOutputBooster × Tokens) := do
  let (cfg, ts) ← decConfig ts
  let (n_boosters, ts) ← decNat ts
  let (boosters, ts) ← decList decBooster ts
  let (metadata, ts) ← decList decMeta ts
  some (({ objective := cfg.objective
           num_threads := cfg.num_threads
           monotone_constraints := cfg.monotone_constraints
           force_children_to_bound_parent :=
             cfg.force_children_to_bound_parent
           missing := cfg.missing
           allow_missing_splits := cfg.allow_missing_splits
           create_missing_branch := cfg.create_missing_branch
           terminate_missing_features := cfg.terminate_missing_features
           missing_node_treatment := cfg.missing_node_treatment
           log_iterations := cfg.log_iterations
           n_boosters, boosters, metadata } : MultiOutputBooster), ts)

/-- Persistence operation `load_booster`: inverse of `save_booster`; reconstructs the
collection, failing with a deserialize error on a malformed stream. -/
def load_booster (ts : Tokens) : Except PError MultiOutputBooster :=
  match decMulti ts with
  | some (m, []) => .ok m
  | _ => .error .deserializeError

/-! ### Round-trip lemmas for the persisted stream -/

lemma decNat_enc (n : Nat) (ts : Tokens) :
    decNat (encNat n ++ ts) = some (n, ts) := rfl

lemma decNum_enc (q : Value) (ts : Tokens) :
    decNum (encNum q ++ ts) = some (q, ts) := rfl

lemma decStr_enc (s : String) (ts : Tokens) :
    decStr (encStr s ++ ts) = some (s, ts) := rfl

lemma decBool_enc (b : Bool) (ts : Tokens) :
    decBool (encBool b ++ ts) = some (b, ts) := rfl

lemma decListN_enc {α : Type} (enc : α → Tokens)
    (dec : Tokens → Option (α × Tokens))
    (h : ∀ x ts, dec (enc x ++ ts) = some (x, ts)) :
    ∀ (xs : List α) (ts : Tokens),
      decListN dec xs.length ((xs.map enc).flatten ++ ts) = some (xs, ts) := by
  intro xs
  induction xs with
  | nil => intro ts; rfl
  | cons x xs ih =>
    intro ts
    simp [decListN, List.append_assoc, h, ih]

lemma decList_enc {α : Type} (enc : α → Tokens)
    (dec : Tokens → Option (α × Tokens))
    (h : ∀ x ts, dec (enc x ++ ts) = some (x, ts))
    (xs : List α) (ts : Tokens) :
    decList dec (encList enc xs ++ ts) = some (xs, ts) := by
  simp [decList, encList, List.append_assoc, decNat_enc,
    decListN_enc enc dec h]

lemma decOptNat_enc (n : Option Nat) (ts : Tokens) :
    decOptNat (encOptNat n ++ ts) = some (n, ts) := by
  cases n <;> rfl

lemma decObjective_enc (o : Objective) (ts : Tokens) :
    decObjective (encObjective o ++ ts) = some (o, ts) := by
  cases o <;> rfl

lemma decMissingNodeTreatment_enc (t : MissingNodeTreatment) (ts : Tokens) :
    decMissingNodeTreatment (encMissingNodeTreatment t ++ ts) =
      some (t, ts) := by
  cases t <;> rfl

lemma decConstraintEntry_enc (p : Nat × Constraint) (ts : Tokens) :
    decConstraintEntry (encConstraintEntry p ++ ts) = some (p, ts) := by
  obtain ⟨f, c⟩ := p
  cases c <;> rfl

lemma decOptConstraintMap_enc (mc : Option (List (Nat × Constraint)))
    (ts : Tokens) :
    decOptConstraintMap (encOptConstraintMap mc ++ ts) = some (mc, ts) := by
  cases mc with
  | none => rfl
  | some l =>
    simp [decOptConstraintMap, encOptConstraintMap, List.append_assoc,
      decBool_enc, decList_enc encConstraintEntry decConstraintEntry
        decConstraintEntry_enc]

lemma decConfig_enc (c : BoosterConfig) (ts : Tokens) :
    decConfig (encConfig c ++ ts) = some (c, ts) := by
  simp only [decConfig, encConfig, List.append_assoc, Option.bind_eq_bind,
    decObjective_enc, Option.some_bind, decOptNat_enc,
    decOptConstraintMap_enc, decBool_enc, decNum_enc,
    decList_enc encNat decNat decNat_enc, decMissingNodeTreatment_enc,
    decNat_enc]

lemma decLeaf_enc (p : Nat × Value) (ts : Tokens) :
    decLeaf (encLeaf p ++ ts) = some (p, ts) := rfl

lemma decTree_enc (t : Tree) (ts : Tokens) :
    decTree (encTree t ++ ts) = some (t, ts) := by
  simp only [decTree, encTree, Option.bind_eq_bind,
    decList_enc encLeaf decLeaf decLeaf_enc, Option.some_bind]

lemma decBooster_enc (b : SingleOutputBooster) (ts : Tokens) :
    decBooster (encBooster b ++ ts) = some (b, ts) := by
  simp only [decBooster, encBooster, List.append_assoc, Option.bind_eq_bind,
    decConfig_enc, Option.some_bind, decNum_enc,
    decList_enc encTree decTree decTree_enc, decOptNat_enc]

lemma decMeta_enc (p : String × String) (ts : Tokens) :
    decMeta (encMeta p ++ ts) = some (p, ts) := rfl

lemma decMulti_enc (m : MultiOutputBooster) (ts : Tokens) :
    decMulti (save_booster m ++ ts) = some (m, ts) := by
  simp only [decMulti, save_booster, List.append_assoc, Option.bind_eq_bind,
    MultiOutputBooster.config, decConfig_enc, Option.some_bind, decNat_enc,
    decList_enc encBooster decBooster decBooster_enc,
    decList_enc encMeta decMeta decMeta_enc]

/-- Saving then loading reconstructs the collection exactly. -/
lemma load_save (m : MultiOutputBooster) :
    load_booster (save_booster m) = .ok m := by
  have h := decMulti_enc m []
  rw [List.append_nil] at h
  simp [load_booster, h]

/-! ### Prediction lemmas -/

/-- A collection previously fitted on matrices with `c` columns: it has at
least one booster and every booster recorded `c` as its fit-time column
count. -/
def FittedWith (m : MultiOutputBooster) (c : Nat) : Prop :=
  m.boosters ≠ [] ∧ ∀ b ∈ m.boosters, b.n_features = some c

/-- The fork-join schedule computes exactly the sequential map. -/
lemma parRun_eq_map (f : SingleOutputBooster → Except PError (List Value)) :
    ∀ (n : Nat) (bs : List SingleOutputBooster), bs.length ≤ n →
      MultiOutputBooster.parRun f bs = bs.map f := by
  intro n
  induction n with
  | zero =>
    intro bs h
    have : bs = [] := List.length_eq_zero.mp (Nat.le_zero.mp h)
    subst this
    simp [MultiOutputBooster.parRun]
  | succ n ih =>
    intro bs h
    match bs with
    | [] => simp [MultiOutputBooster.parRun]
    | [b] => simp [MultiOutputBooster.parRun]
    | b₀ :: b₁ :: rest =>
      rw [MultiOutputBooster.parRun]
      have hlen : (b₀ :: b₁ :: rest).length = rest.length + 2 := by simp
      have htake : ((b₀ :: b₁ :: rest).take ((b₀ :: b₁ :: rest).length / 2)).length ≤ n := by
        simp only [List.length_take, hlen]
        omega
      have hdrop : ((b₀ :: b₁ :: rest).drop ((b₀ :: b₁ :: rest).length / 2)).length ≤ n := by
        simp only [List.length_drop, hlen]
        omega
      rw [ih _ htake, ih _ hdrop, ← List.map_append, List.take_append_drop]

/-- Collecting all-successful per-output results concatenates them in
output-index order. -/
lemma collectResults_map_ok (g : SingleOutputBooster → List Value) :
    ∀ bs : List SingleOutputBooster,
      MultiOutputBooster.collectResults (bs.map fun b => .ok (g b)) =
        .ok (bs.map g).flatten := by
  intro bs
  induction bs with
  | nil => rfl
  | cons b bs ih => simp [MultiOutputBooster.collectResults, ih]

/-- A failing first output surfaces its error from `collectResults`. -/
lemma collectResults_cons_error (e : PError)
    (xs : List (Except PError (List Value))) :
    MultiOutputBooster.collectResults (.error e :: xs) = .error e := rfl

/-- Length of a concatenation of equal-length blocks. -/
lemma flatten_length_of_uniform (R : Nat) :
    ∀ ls : List (List Value), (∀ l ∈ ls, l.length = R) →
      ls.flatten.length = ls.length * R := by
  intro ls
  induction ls with
  | nil => intro _; simp
  | cons xs ls ih =>
    intro h
    have hx : xs.length = R := h xs (by simp)
    have hrest : ∀ l ∈ ls, l.length = R := fun l hl => h l (by simp [hl])
    simp [List.length_append, hx, ih hrest, Nat.succ_mul, Nat.add_comm]

/-- Indexing into a concatenation of equal-length blocks: position
i*R + r falls in block i at offset r. -/
lemma flatten_getD_of_uniform (R : Nat) (d : Value) :
    ∀ ls : List (List Value), (∀ l ∈ ls, l.length = R) →
      ∀ i r, i < ls.length → r < R →
        ls.flatten.getD (i * R + r) d = (ls.getD i []).getD r d := by
  intro ls
  induction ls with
  | nil =>
    intro _ i r hi _
    exact absurd hi (by simp)
  | cons xs ls ih =>
    intro h i r hi hr
    have hx : xs.length = R := h xs (by simp)
    have hrest : ∀ l ∈ ls, l.length = R := fun l hl => h l (by simp [hl])
    cases i with
    | zero =>
      simp only [List.flatten_cons, Nat.zero_mul, Nat.zero_add, List.getD_cons_zero]
      exact List.getD_append _ _ _ _ (by omega)
    | succ i =>
      have harith : (i + 1) * R + r = xs.length + (i * R + r) := by
        rw [hx]; ring
      simp only [List.flatten_cons, List.getD_cons_succ, harith]
      rw [List.getD_append_right _ _ _ _ (by omega), Nat.add_sub_cancel_left]
      exact ih hrest i r (by simpa using hi) hr

/-- On a fitted collection and a matrix with the fit-time column count,
every booster's raw prediction succeeds with one value per row. -/
lemma predict_fitted (m : MultiOutputBooster) (data : Matrix) (c : Nat)
    (hfit : ∀ b ∈ m.boosters, b.n_features = some c) (hc : data.cols = c)
    (parallel : Bool) :
    m.predict data parallel =
      .ok (m.boosters.map fun b =>
        (List.range data.rows).map fun r => b.predictRow (data.row r)).flatten := by
  have hpt : ∀ b ∈ m.boosters, b.predict data =
      .ok ((List.range data.rows).map fun r => b.predictRow (data.row r)) := by
    intro b hb
    simp [SingleOutputBooster.predict, hfit b hb, hc]
  have hmap : m.boosters.map (fun b => b.predict data) =
      m.boosters.map fun b =>
        .ok ((List.range data.rows).map fun r => b.predictRow (data.row r)) :=
    List.map_congr_left hpt
  unfold MultiOutputBooster.predict
  rw [parRun_eq_map _ m.boosters.length m.boosters le_rfl]
  cases parallel <;>
    simp only [if_true, if_false, Bool.false_eq_true, ite_self, hmap,
      collectResults_map_ok]

/-- Either schedule of `predict` computes the sequential per-booster map. -/
lemma predict_eq_seq (m : MultiOutputBooster) (data : Matrix) (p : Bool) :
    m.predict data p =
      MultiOutputBooster.collectResults
        (m.boosters.map fun b => b.predict data) := by
  unfold MultiOutputBooster.predict
  cases p
  · rfl
  · rw [if_pos rfl, parRun_eq_map _ m.boosters.length m.boosters le_rfl]

/-- Either schedule of `predict_proba` computes the sequential map. -/
lemma predict_proba_eq_seq (m : MultiOutputBooster) (data : Matrix) (p : Bool) :
    m.predict_proba data p =
      MultiOutputBooster.collectResults
        (m.boosters.map fun b => b.predictProba data) := by
  unfold MultiOutputBooster.predict_proba
  cases p
  · rfl
  · rw [if_pos rfl, parRun_eq_map _ m.boosters.length m.boosters le_rfl]

/-! ### Concrete collections used to instantiate the theorems -/

/-- A concrete configuration. -/
def exCfg : BoosterConfig :=
  { objective := .SquaredLoss
    num_threads := some 4
    monotone_constraints := some [(0, .Positive)]
    force_children_to_bound_parent := false
    missing := 0
    allow_missing_splits := true
    create_missing_branch := false
    terminate_missing_features := [1]
    missing_node_treatment := .Average
    log_iterations := 1 }

/-- A concrete fitted two-output collection (both boosters fitted on two
feature columns). -/
def exCollection : MultiOutputBooster :=
  { objective := exCfg.objective
    num_threads := exCfg.num_threads
    monotone_constraints := exCfg.monotone_constraints
    force_children_to_bound_parent := exCfg.force_children_to_bound_parent
    missing := exCfg.missing
    allow_missing_splits := exCfg.allow_missing_splits
    create_missing_branch := exCfg.create_missing_branch
    terminate_missing_features := exCfg.terminate_missing_features
    missing_node_treatment := exCfg.missing_node_treatment
    log_iterations := exCfg.log_iterations
    n_boosters := 2
    boosters :=
      [{ config := exCfg, base_score := 1, trees := [⟨[(0, 2)]⟩],
         n_features := some 2 },
       { config := exCfg, base_score := 3, trees := [],
         n_features := some 2 }]
    metadata := [("k0", "v0")] }

/-! ### The claims -/

/-- C1: saving a collection with `save_booster` and loading it back with
`load_booster` yields a collection whose `predict` and `predict_proba`
output equals the original's element-wise on every input, and whose
`get_params` returns identical values. -/
theorem c1_save_load_round_trip (m : MultiOutputBooster)
    (flat : List Value) (rows cols : Nat) (parallel : Option Bool) :
    ∃ m', load_booster (save_booster m) = .ok m' ∧
      pyPredict m' flat rows cols parallel =
        pyPredict m flat rows cols parallel ∧
      pyPredictProba m' flat rows cols parallel =
        pyPredictProba m flat rows cols parallel ∧
      get_params m' = get_params m :=
  ⟨m, load_save m, rfl, rfl, rfl⟩

/-- C2: the parallel flag never changes the numeric output of `predict`
(or `predict_proba`); both modes return exactly the same values. -/
theorem c2_parallel_sequential_equivalence (m : MultiOutputBooster)
    (flat : List Value) (rows cols : Nat) :
    pyPredict m flat rows cols (some true) =
      pyPredict m flat rows cols (some false) ∧
    pyPredictProba m flat rows cols (some true) =
      pyPredictProba m flat rows cols (some false) := by
  constructor
  · unfold pyPredict
    cases Matrix.new flat rows cols with
    | error e => rfl
    | ok data =>
      simp only [Option.getD_some]
      rw [predict_eq_seq, predict_eq_seq]
  · unfold pyPredictProba
    cases Matrix.new flat rows cols with
    | error e => rfl
    | ok data =>
      simp only [Option.getD_some]
      rw [predict_proba_eq_seq, predict_proba_eq_seq]

/-- C5: `get_metadata` fails with the NotFound condition exactly when the
key was never stored and never returns a default; after
`insert_metadata k v`, `get_metadata k` returns `v`, a later insert for
the same key overwrites the earlier value, and `insert_metadata` always
reports success. -/
theorem c5_metadata_store_contract (m : MultiOutputBooster)
    (k v v' : String) :
    (pyInsertMetadata m k v).1 = .ok () ∧
    pyGetMetadata (m.insert_metadata k v) k = .ok v ∧
    pyGetMetadata ((m.insert_metadata k v').insert_metadata k v) k = .ok v ∧
    (m.get_metadata k = none → pyGetMetadata m k = .error .notFoundError) := by
  refine ⟨rfl, ?_, ?_, ?_⟩
  · simp [pyGetMetadata, MultiOutputBooster.insert_metadata,
      MultiOutputBooster.get_metadata]
  · simp [pyGetMetadata, MultiOutputBooster.insert_metadata,
      MultiOutputBooster.get_metadata]
  · intro h
    simp [pyGetMetadata, h]

/-- Witness for C5 at a concrete collection: the key "missing" was never
stored in `exCollection`, so lookup fails; inserts behave as stated. -/
theorem c5_metadata_store_contract_witness :
    pyGetMetadata (exCollection.insert_metadata "k1" "a") "k1" = .ok "a" ∧
    pyGetMetadata
      ((exCollection.insert_metadata "k1" "old").insert_metadata "k1" "a")
      "k1" = .ok "a" ∧
    pyGetMetadata exCollection "missing" = .error .notFoundError :=
  ⟨(c5_metadata_store_contract exCollection "k1" "a" "old").2.1,
   (c5_metadata_store_contract exCollection "k1" "a" "old").2.2.1,
   (c5_metadata_store_contract exCollection "missing" "a" "old").2.2.2 rfl⟩

/-- C3: on a fitted collection with N boosters and an R-row feature
matrix of the fit-time width, `predict` returns a flat array of length
N*R laid out output-major — the element at index i*R + r is booster i's
prediction for row r. -/
theorem c3_output_major_layout (m : MultiOutputBooster) (flat : List Value)
    (rows cols : Nat) (parallel : Option Bool)
    (hfit : ∀ b ∈ m.boosters, b.n_features = some cols)
    (hwf : flat.length = rows * cols) :
    ∃ out, pyPredict m flat rows cols parallel = .ok out ∧
      out.length = m.boosters.length * rows ∧
      ∀ i r, i < m.boosters.length → r < rows →
        out.getD (i * rows + r) 0 =
          (m.boosters.getD i (newBooster m.config)).predictRow
            ((Matrix.mk flat rows cols).row r) := by
  have hnew : Matrix.new flat rows cols = .ok ⟨flat, rows, cols⟩ := by
    simp [Matrix.new, hwf]
  have hp := predict_fitted m ⟨flat, rows, cols⟩ cols hfit rfl (parallel.getD true)
  refine ⟨(m.boosters.map fun b =>
      (List.range rows).map fun r =>
        b.predictRow ((Matrix.mk flat rows cols).row r)).flatten, ?_, ?_, ?_⟩
  · rw [pyPredict, hnew]
    exact hp
  · rw [flatten_length_of_uniform rows _ (by simp)]
    simp
  · intro i r hi hr
    have huni : ∀ l ∈ m.boosters.map fun b =>
        (List.range rows).map fun r => b.predictRow ((Matrix.mk flat rows cols).row r),
        l.length = rows := by simp
    rw [flatten_getD_of_uniform rows 0 _ huni i r (by simpa using hi) hr]
    have hgi : (m.boosters.map fun b =>
        (List.range rows).map fun r => b.predictRow ((Matrix.mk flat rows cols).row r)).getD i [] =
        (List.range rows).map fun r =>
          (m.boosters.getD i (newBooster m.config)).predictRow
            ((Matrix.mk flat rows cols).row r) := by
      rw [List.getD_eq_getElem _ _ (by simpa using hi),
        List.getD_eq_getElem _ _ hi, List.getElem_map]
    rw [hgi, List.getD_eq_getElem _ _ (by simpa using hr), List.getElem_map,
      List.getElem_range]

/-- Witness for C3: the concrete fitted two-output collection on a
three-row, two-column matrix yields six values, booster 1's row-0
prediction at index 1*3 + 0 = 3. -/
theorem c3_output_major_layout_witness :
    (∀ b ∈ exCollection.boosters, b.n_features = some 2) ∧
    ([1, 2, 3, 4, 5, 6] : List Value).length = 3 * 2 ∧
    ∃ out, pyPredict exCollection [1, 2, 3, 4, 5, 6] 3 2 none = .ok out ∧
      out.length = exCollection.boosters.length * 3 ∧
      ∀ i r, i < exCollection.boosters.length → r < 3 →
        out.getD (i * 3 + r) 0 =
          (exCollection.boosters.getD i (newBooster exCollection.config)).predictRow
            ((Matrix.mk [1, 2, 3, 4, 5, 6] 3 2).row r) :=
  ⟨by decide, by decide,
   c3_output_major_layout exCollection [1, 2, 3, 4, 5, 6] 3 2 none
     (by decide) (by decide)⟩

/-- C8: on a fitted collection, `predict` over a feature matrix whose
column count differs from the fit-time column count fails with the
engine's ShapeError, surfaced unchanged. -/
theorem c8_predict_fit_width_mismatch (m : MultiOutputBooster)
    (flat : List Value) (rows cols c : Nat) (parallel : Option Bool)
    (hfit : FittedWith m c) (hne : cols ≠ c)
    (hwf : flat.length = rows * cols) :
    pyPredict m flat rows cols parallel = .error .shapeError := by
  have hnew : Matrix.new flat rows cols = .ok ⟨flat, rows, cols⟩ := by
    simp [Matrix.new, hwf]
  rw [pyPredict, hnew]
  show m.predict ⟨flat, rows, cols⟩ (parallel.getD true) = .error .shapeError
  rw [predict_eq_seq]
  obtain ⟨hne', hall⟩ := hfit
  match hbs : m.boosters with
  | [] => exact absurd hbs hne'
  | b :: rest =>
    have hb : b.predict ⟨flat, rows, cols⟩ = .error .shapeError := by
      have := hall b (by rw [hbs]; simp)
      simp [SingleOutputBooster.predict, this, hne]
    simp only [List.map_cons, hb, collectResults_cons_error]

/-- Witness for C8: the concrete collection was fitted on two columns;
predicting on a one-column matrix fails with a ShapeError. -/
theorem c8_predict_fit_width_mismatch_witness :
    FittedWith exCollection 2 ∧
    pyPredict exCollection [1, 2, 3] 3 1 (some true) = .error .shapeError :=
  ⟨⟨by decide, by decide⟩,
   c8_predict_fit_width_mismatch exCollection [1, 2, 3] 3 1 2 (some true)
     ⟨by decide, by decide⟩ (by decide) (by decide)⟩

/-- C6: a fit call whose flat target buffer cannot form a matrix with
exactly N columns and the feature matrix's row count fails with a
ShapeError and leaves the collection — every booster — unchanged. -/
theorem c6_fit_shape_validation (m : MultiOutputBooster)
    (flat y : List Value) (rows cols : Nat) (reset : Option Bool)
    (hy : y.length ≠ rows * m.n_boosters) :
    pyFit m flat rows cols y reset = (.error .shapeError, m) := by
  by_cases hf : flat.length = rows * cols <;>
    simp [pyFit, Matrix.new, hf, hy]

/-- Witness for C6: fitting the concrete two-output collection with a
three-value target buffer for one row (needs 1*2 = 2 values) fails with
a ShapeError and the collection is unchanged. -/
theorem c6_fit_shape_validation_witness :
    ([1, 2, 3] : List Value).length ≠ 1 * exCollection.n_boosters ∧
    pyFit exCollection [1, 2] 1 2 [1, 2, 3] none =
      (.error .shapeError, exCollection) :=
  ⟨by decide,
   c6_fit_shape_validation exCollection [1, 2] [1, 2, 3] 1 2 none (by decide)⟩

/-- C4: a `set_<field>` call whose value fails validation returns an
error and leaves the collection's configuration — as observed by
`get_params` and by the whole state — exactly as before the call. -/
theorem c4_failed_setter_atomicity (m : MultiOutputBooster) (s : String)
    (mc : List (Int × Int)) :
    (parseObjective s = none →
      pySetObjective m s = (.error .configError, m) ∧
      get_params (pySetObjective m s).2 = get_params m) ∧
    (parseMissingNodeTreatment s = none →
      pySetMissingNodeTreatment m s = (.error .configError, m) ∧
      get_params (pySetMissingNodeTreatment m s).2 = get_params m) ∧
    (∀ e, int_map_to_constraint_map mc = .error e →
      pySetMonotoneConstraints m mc = (.error e, m) ∧
      get_params (pySetMonotoneConstraints m mc).2 = get_params m) := by
  refine ⟨fun h => ?_, fun h => ?_, fun e h => ?_⟩
  · rw [pySetObjective, h]
    exact ⟨rfl, rfl⟩
  · rw [pySetMissingNodeTreatment, h]
    exact ⟨rfl, rfl⟩
  · rw [pySetMonotoneConstraints, h]
    exact ⟨rfl, rfl⟩

/-- Witness for C4: an unrecognized objective string, an unrecognized
missing-node-treatment string, and a malformed constraint map each leave
the concrete collection untouched. -/
theorem c4_failed_setter_atomicity_witness :
    pySetObjective exCollection "bogus" = (.error .configError, exCollection) ∧
    pySetMissingNodeTreatment exCollection "bogus" =
      (.error .configError, exCollection) ∧
    pySetMonotoneConstraints exCollection [(-1, 1)] =
      (.error .configError, exCollection) :=
  ⟨((c4_failed_setter_atomicity exCollection "bogus" [(-1, 1)]).1 rfl).1,
   ((c4_failed_setter_atomicity exCollection "bogus" [(-1, 1)]).2.1 rfl).1,
   ((c4_failed_setter_atomicity exCollection "bogus" [(-1, 1)]).2.2
     .configError (by rfl)).1⟩

/-- Any negative feature index makes the constraint-map translation fail
with a ConfigError. -/
lemma int_map_neg_key :
    ∀ mc : List (Int × Int), (∃ p ∈ mc, p.1 < 0) →
      int_map_to_constraint_map mc = .error .configError := by
  intro mc
  induction mc with
  | nil =>
    rintro ⟨p, hp, _⟩
    cases hp
  | cons q rest ih =>
    rintro ⟨p, hp, hneg⟩
    obtain ⟨f, c⟩ := q
    by_cases hf : f < 0
    · simp only [int_map_to_constraint_map, if_pos hf]
    · have hrest : ∃ p ∈ rest, p.1 < 0 := by
        rcases List.mem_cons.mp hp with h | h
        · exact absurd (by simpa [h] using hneg) hf
        · exact ⟨p, h, hneg⟩
      simp only [int_map_to_constraint_map, if_neg hf, ih hrest]
      cases constraintOfInt c <;> rfl

/-- C7: construction fails with a ConfigError whenever the objective
string or the missing-node-treatment string is unrecognized or a
constraint-map feature index is negative; on success the collection has
exactly N boosters, each holding the identical supplied configuration. -/
theorem c7_construction_validation (n : Nat) (objective : String)
    (num_threads : Option Nat) (mc : List (Int × Int)) (fc : Bool)
    (mi : Value) (ams cmb : Bool) (tmf : List Nat) (mnt : String)
    (li : Nat) :
    ((parseObjective objective = none ∨ parseMissingNodeTreatment mnt = none ∨
        (∃ p ∈ mc, p.1 < 0)) →
      pyNew n objective num_threads mc fc mi ams cmb tmf mnt li =
        .error .configError) ∧
    (∀ m, pyNew n objective num_threads mc fc mi ams cmb tmf mnt li = .ok m →
      m.n_boosters = n ∧ m.boosters.length = n ∧
      (∀ b ∈ m.boosters, b.config = m.config) ∧
      parseObjective objective = some m.objective ∧
      parseMissingNodeTreatment mnt = some m.missing_node_treatment ∧
      m.num_threads = num_threads ∧
      m.force_children_to_bound_parent = fc ∧ m.missing = mi ∧
      m.allow_missing_splits = ams ∧ m.create_missing_branch = cmb ∧
      m.terminate_missing_features = tmf ∧ m.log_iterations = li ∧
      (∃ mc', int_map_to_constraint_map mc = .ok mc' ∧
        m.monotone_constraints = some mc')) := by
  constructor
  · rintro (ho | hm | hneg)
    · simp [pyNew, ho]
    · rw [pyNew]
      cases parseObjective objective with
      | none => rfl
      | some o => rw [hm]
    · rw [pyNew]
      cases parseObjective objective with
      | none => rfl
      | some o =>
        cases parseMissingNodeTreatment mnt with
        | none => rfl
        | some t => rw [int_map_neg_key mc hneg]
  · intro m hm
    rw [pyNew] at hm
    cases ho : parseObjective objective with
    | none => rw [ho] at hm; cases hm
    | some o =>
      rw [ho] at hm
      cases hmnt : parseMissingNodeTreatment mnt with
      | none => rw [hmnt] at hm; cases hm
      | some t =>
        rw [hmnt] at hm
        cases hmc : int_map_to_constraint_map mc with
        | error e => rw [hmc] at hm; cases hm
        | ok mc' =>
          rw [hmc] at hm
          cases hm
          refine ⟨rfl, by simp [MultiOutputBooster.set_n_boosters], ?_,
            rfl, rfl, rfl, rfl, rfl, rfl, rfl, rfl, rfl, mc', rfl, rfl⟩
          intro b hb
          have hrep := List.eq_of_mem_replicate
            (by simpa [MultiOutputBooster.set_n_boosters] using hb)
          subst hrep
          rfl

/-- Witness for C7: a bogus objective string is rejected with a
ConfigError, and a successful concrete construction yields two boosters
sharing the supplied configuration. -/
theorem c7_construction_validation_witness :
    pyNew 2 "bogus" none [] false 0 true false [] "Average" 0 =
      .error .configError ∧
    ∃ m, pyNew 2 "SquaredLoss" (some 4) [(0, 1)] false 0 true false [1]
        "Average" 3 = .ok m ∧
      m.n_boosters = 2 ∧ m.boosters.length = 2 ∧
      ∀ b ∈ m.boosters, b.config = m.config :=
  ⟨(c7_construction_validation 2 "bogus" none [] false 0 true false []
      "Average" 0).1 (Or.inl rfl),
   ⟨_, rfl,
    ((c7_construction_validation 2 "SquaredLoss" (some 4) [(0, 1)] false 0
        true false [1] "Average" 3).2 _ rfl).1,
    ((c7_construction_validation 2 "SquaredLoss" (some 4) [(0, 1)] false 0
        true false [1] "Average" 3).2 _ rfl).2.1,
    ((c7_construction_validation 2 "SquaredLoss" (some 4) [(0, 1)] false 0
        true false [1] "Average" 3).2 _ rfl).2.2.1⟩⟩

/-- Distinct objectives have distinct string forms. -/
lemma objectiveToString_inj (a b : Objective)
    (h : objectiveToString a = objectiveToString b) : a = b := by
  cases a <;> cases b <;> first | rfl | exact absurd h (by decide)

/-- Distinct missing-node treatments have distinct string forms. -/
lemma missingNodeTreatmentToString_inj (a b : MissingNodeTreatment)
    (h : missingNodeTreatmentToString a = missingNodeTreatmentToString b) :
    a = b := by
  cases a <;> cases b <;> first | rfl | exact absurd h (by decide)

/-- Counterexample to C9 as stated: two collections that differ only in
their output count — one versus two boosters — have identical
`get_params` snapshots, so the output count is not recoverable from the
snapshot. -/
theorem c9_output_count_not_in_params :
    get_params (MultiOutputBooster.default.set_n_boosters 1) =
      get_params (MultiOutputBooster.default.set_n_boosters 2) ∧
    (MultiOutputBooster.default.set_n_boosters 1).n_boosters ≠
      (MultiOutputBooster.default.set_n_boosters 2).n_boosters :=
  ⟨rfl, by decide⟩

/-- C9 (amended): the `get_params` snapshot determines every
configuration field it reports — objective, thread count, the effective
integer constraint map, and the seven remaining policy fields — with its
current value; the output count is not part of the snapshot. -/
theorem c9_get_params_snapshot (m m' : MultiOutputBooster)
    (h : get_params m = get_params m') :
    m.objective = m'.objective ∧ m.num_threads = m'.num_threads ∧
    m.allow_missing_splits = m'.allow_missing_splits ∧
    monotoneConstraintParam m = monotoneConstraintParam m' ∧
    m.missing = m'.missing ∧
    m.create_missing_branch = m'.create_missing_branch ∧
    m.terminate_missing_features = m'.terminate_missing_features ∧
    m.missing_node_treatment = m'.missing_node_treatment ∧
    m.log_iterations = m'.log_iterations ∧
    m.force_children_to_bound_parent = m'.force_children_to_bound_parent := by
  simp only [get_params, List.cons.injEq, Prod.mk.injEq, ParamValue.str.injEq,
    ParamValue.optNat.injEq, ParamValue.bool.injEq, ParamValue.intMap.injEq,
    ParamValue.num.injEq, ParamValue.natSet.injEq, ParamValue.nat.injEq,
    true_and, and_true] at h
  obtain ⟨h1, h2, h3, h4, h5, h6, h7, h8, h9, h10⟩ := h
  exact ⟨objectiveToString_inj _ _ h1, h2, h3, h4, h5, h6, h7,
    missingNodeTreatmentToString_inj _ _ h8, h9, h10⟩

/-- Witness for the amended C9 at a concrete collection. -/
theorem c9_get_params_snapshot_witness :
    exCollection.objective = exCollection.objective ∧
    exCollection.num_threads = exCollection.num_threads ∧
    exCollection.allow_missing_splits = exCollection.allow_missing_splits ∧
    monotoneConstraintParam exCollection = monotoneConstraintParam exCollection ∧
    exCollection.missing = exCollection.missing ∧
    exCollection.create_missing_branch = exCollection.create_missing_branch ∧
    exCollection.terminate_missing_features =
      exCollection.terminate_missing_features ∧
    exCollection.missing_node_treatment = exCollection.missing_node_treatment ∧
    exCollection.log_iterations = exCollection.log_iterations ∧
    exCollection.force_children_to_bound_parent =
      exCollection.force_children_to_bound_parent :=
  c9_get_params_snapshot exCollection exCollection rfl

/-- C10: `get_params` always reports the monotone-constraint field — an
empty integer map when the collection holds no constraint map, and
otherwise each stored constraint coded Negative as -1, Positive as 1,
Unconstrained as 0. -/
theorem c10_monotone_constraint_param_reporting (m : MultiOutputBooster) :
    (m.monotone_constraints = none →
      (get_params m).lookup "monotone_constraints" = some (.intMap [])) ∧
    (∀ cm, m.monotone_constraints = some cm →
      (get_params m).lookup "monotone_constraints" =
        some (.intMap (cm.map fun p => (p.1, constraintToInt p.2)))) ∧
    constraintToInt .Negative = -1 ∧ constraintToInt .Positive = 1 ∧
    constraintToInt .Unconstrained = 0 := by
  refine ⟨fun h => ?_, fun cm h => ?_, rfl, rfl, rfl⟩
  · simp [get_params, List.lookup, monotoneConstraintParam, h]
  · simp [get_params, List.lookup, monotoneConstraintParam, h]

/-- Witness for C10: the default collection holds no constraint map and
reports the empty map; the concrete collection's stored Positive
constraint on feature 0 is reported as 1. -/
theorem c10_monotone_constraint_param_reporting_witness :
    (get_params MultiOutputBooster.default).lookup "monotone_constraints" =
      some (.intMap []) ∧
    (get_params exCollection).lookup "monotone_constraints" =
      some (.intMap [(0, 1)]) :=
  ⟨(c10_monotone_constraint_param_reporting MultiOutputBooster.default).1 rfl,
   by simpa using
     (c10_monotone_constraint_param_reporting exCollection).2.1
       [(0, .Positive)] rfl⟩

end Perpetual
